import Mathlib

/-!
# Verification of the Sunny 16 calculator core

Shallow embedding of `src/config.py`, `src/utils.py` and `src/calculations.py`.

Python floats are modelled as exact rationals (`ℚ`).  Every scale value in
`config.py` is a float literal or a quotient of literals, and every claim under
study depends only on comparisons and equalities that the float values and the
exact rationals decide identically, since adjacent scale entries are separated
by far more than the float representation error.

Rational division is written with `qdiv` (and literal fractions with `mkRat`),
which the theorem `qdiv_eq_div` proves equal to the field division `(· / ·)`;
this keeps every definition kernel-executable (the ambient `Rat.inv` is marked
irreducible upstream, which blocks `decide` on terms built with `/`).

The nearest-stop resolver in `utils.py` keys the scan by
`abs(log2(x) - log2(target))`.  To keep the embedding executable we key the
scan by the order-equivalent exact quantity `max (x^2 / t^2) (t^2 / x^2)`:
for positive `x`, `t` both keys induce the same total preorder on candidates
(theorems `stopKeySq_le_iff` and `stopKeySq_lt_iff` below prove this order
equivalence against the real `|logb 2 x - logb 2 t|`).  Working with the
*square* of the target lets `calculate_aperture`, whose exact target is the
irrational `sqrt((iso/100) * 2^ev * shutterspeed)`, run on the rational square
directly.

Python exceptions are modelled with `Except PyErr`: `math.log2` / `math.sqrt`
domain failures and `list.index` / `min([])` failures raise `ValueError`,
division by zero raises `ZeroDivisionError`.  Warning message strings are kept
verbatim except that the interpolated numeral (Python f-string pieces such as
`f"{exact_aperture:.1f}"`) is elided, since the exact value can be irrational
and no claim depends on the interpolated digits, only on which message fires
and on its non-emptiness.
-/

set_option maxRecDepth 100000

namespace Sunny16


/-- Exact rational division, definitionally kernel-friendly; `qdiv_eq_div`
below identifies it with the field division on `ℚ`. -/
def qdiv (a b : ℚ) : ℚ := Rat.divInt (a.num * b.den) (a.den * b.num)

/-- Exact rational multiplication, definitionally kernel-friendly;
`qmul_eq_mul` identifies it with the ring multiplication on `ℚ`. -/
def qmul (a b : ℚ) : ℚ := Rat.divInt (a.num * b.num) ((a.den : ℤ) * b.den)

/-- Exact rational addition, definitionally kernel-friendly;
`qadd_eq_add` identifies it with the ring addition on `ℚ`. -/
def qadd (a b : ℚ) : ℚ :=
  Rat.divInt (a.num * b.den + b.num * a.den) ((a.den : ℤ) * b.den)

/-- The power `2 ^ ev` of the exposure equations for an integer `ev`,
definitionally kernel-friendly; `zpow2_eq` identifies it with `(2:ℚ) ^ ev`. -/
def zpow2 (ev : ℤ) : ℚ :=
  if 0 ≤ ev then Rat.divInt (2 ^ ev.toNat) 1 else Rat.divInt 1 (2 ^ (-ev).toNat)

/-- Python exception classes that the calculator can raise. -/
inductive PyErr where
  | valueError (msg : String)
  | zeroDivisionError (msg : String)
deriving DecidableEq

deriving instance DecidableEq for Except

/-! ## Stop scale catalog, from `src/config.py` -/

/-- `STANDARD_ISO_VALUES` from `config.py`. -/
def STANDARD_ISO_VALUES : List ℚ :=
  [50, 64, 80,
   100, 125, 160,
   200, 250, 320,
   400, 500, 640,
   800, 1000, 1250,
   1600, 2000, 2500,
   3200, 4000, 5000,
   6400, 8000, 10000,
   12800, 16000, 20000,
   25600, 32000, 40000, 51200]

/-- Python's slice `l[3:-3]`, used for every UI scale in `config.py`. -/
def uiSlice (l : List ℚ) : List ℚ := (l.drop 3).take (l.length - 6)

/-- `ISO_VALUES = STANDARD_ISO_VALUES[3:-3]` from `config.py`. -/
def ISO_VALUES : List ℚ := uiSlice STANDARD_ISO_VALUES

/-- `STANDARD_APERTURES` from `config.py`; the float literals `0.7, 0.8, ...`
are written as exact fractions `mkRat 7 10, ...`. -/
def STANDARD_APERTURES : List ℚ :=
  [mkRat 7 10, mkRat 8 10, mkRat 9 10,
   1, mkRat 11 10, mkRat 12 10,
   mkRat 14 10, mkRat 16 10, mkRat 18 10,
   2, mkRat 22 10, mkRat 25 10,
   mkRat 28 10, mkRat 32 10, mkRat 35 10,
   4, mkRat 45 10, 5,
   mkRat 56 10, mkRat 63 10, mkRat 71 10,
   8, 9, 10,
   11, 13, 14,
   16, 18, 20,
   22, 25, 29,
   32, 36, 40, 45]

/-- `APERTURES = STANDARD_APERTURES[3:-3]` from `config.py`. -/
def APERTURES : List ℚ := uiSlice STANDARD_APERTURES

/-- `STANDARD_SHUTTER_SPEEDS` from `config.py`; the float expressions
`2.0, 1.6, 1.3, 1.0, 1/1.3, 1/1.6, 1/2, 1/2.5, 1/3, ...` are written as exact
fractions. -/
def STANDARD_SHUTTER_SPEEDS : List ℚ :=
  [2, mkRat 16 10, mkRat 13 10,
   1, mkRat 10 13, mkRat 10 16,
   mkRat 1 2, mkRat 10 25, mkRat 1 3,
   mkRat 1 4, mkRat 1 5, mkRat 1 6,
   mkRat 1 8, mkRat 1 10, mkRat 1 13,
   mkRat 1 15, mkRat 1 20, mkRat 1 25,
   mkRat 1 30, mkRat 1 40, mkRat 1 50,
   mkRat 1 60, mkRat 1 80, mkRat 1 100,
   mkRat 1 125, mkRat 1 160, mkRat 1 200,
   mkRat 1 250, mkRat 1 320, mkRat 1 400,
   mkRat 1 500, mkRat 1 640, mkRat 1 800,
   mkRat 1 1000, mkRat 1 1250, mkRat 1 1600,
   mkRat 1 2000, mkRat 1 2500, mkRat 1 3200,
   mkRat 1 4000, mkRat 1 5000, mkRat 1 6400,
   mkRat 1 8000, mkRat 1 10000, mkRat 1 12500, mkRat 1 16000]

/-- `SHUTTER_SPEEDS = STANDARD_SHUTTER_SPEEDS[3:-3]` from `config.py`. -/
def SHUTTER_SPEEDS : List ℚ := uiSlice STANDARD_SHUTTER_SPEEDS

/-- Python's `min(...)` over a list; only ever applied to the non-empty UI
scales in `calculations.py` (Python would raise on `[]`; the `0` default is
unreachable in all uses). -/
def listMin : List ℚ → ℚ
  | [] => 0
  | x :: xs => xs.foldl min x

/-- Python's `max(...)` over a list; same usage note as `listMin`. -/
def listMax : List ℚ → ℚ
  | [] => 0
  | x :: xs => xs.foldl max x

/-! ## Nearest-stop resolver, from `src/utils.py` -/

/-- Exact, order-equivalent form of the scan key
`abs(log2 x - log2 target)` used by `find_nearest`: for a positive candidate
`x` and a positive target `t` with `t^2 = tsq`,
`max (x^2/tsq) (tsq/x^2)` equals `(2 ^ |log2 x - log2 t|)^2`, a strictly
increasing function of the source's key. -/
def stopKeySq (tsq x : ℚ) : ℚ := max (qdiv (x^2) tsq) (qdiv tsq (x^2))

/-- Python's `min(iterable, key=k)`: linear scan keeping the first element
whose key is minimal. -/
def minByFirst (k : ℚ → ℚ) (x : ℚ) (xs : List ℚ) : ℚ :=
  xs.foldl (fun acc y => if k y < k acc then y else acc) x

/-- `find_nearest` from `utils.py`, with the target given by its square
(the aperture path resolves against the irrational `sqrt` of a rational, whose
square is exactly representable).  `min([])` and `math.log2` of a non-positive
number raise `ValueError` in Python. -/
def find_nearest_sq (possible_values : List ℚ) (tsq : ℚ) : Except PyErr ℚ :=
  match possible_values with
  | [] => .error (.valueError "min() arg is an empty sequence")
  | x :: xs =>
    if tsq ≤ 0 ∨ ¬ (x :: xs).all (fun y => decide (0 < y)) then
      .error (.valueError "math domain error")
    else
      .ok (minByFirst (stopKeySq tsq) x xs)

/-- `find_nearest(possible_values, target_value)` from `utils.py` for a
rational target: resolves to the scale element nearest in log₂ (stop)
distance, first minimum winning. -/
def find_nearest (possible_values : List ℚ) (target_value : ℚ) : Except PyErr ℚ :=
  match possible_values with
  | [] => .error (.valueError "min() arg is an empty sequence")
  | x :: xs =>
    if target_value ≤ 0 ∨ ¬ (x :: xs).all (fun y => decide (0 < y)) then
      .error (.valueError "math domain error")
    else
      .ok (minByFirst (stopKeySq (target_value^2)) x xs)

/-! ## Formatting layer, from `src/utils.py` -/

/-- Two-digit zero-padding of the fractional part. -/
def pad2 (n : ℤ) : String := if n < 10 then "0" ++ toString n else toString n

/-- Python's fixed-point rendering `f"{q:.2f}"` for a positive rational
(every use in `generate_shutter_speed_labels` is at a positive value that is an
exact multiple of 1/100, so the rounding mode at ties is immaterial). -/
def fmt2f (q : ℚ) : String :=
  let c : ℤ := ⌊qadd (qmul q 100) (mkRat 1 2)⌋
  toString (c / 100) ++ "." ++ pad2 (c % 100)

/-- Python's `str.rstrip` for a single strip character: removes every trailing
occurrence of `c`. -/
def rstrip (s : String) (c : Char) : String :=
  ⟨(s.data.reverse.dropWhile (fun d => d = c)).reverse⟩

/-- `generate_shutter_speed_labels` from `utils.py`: `"1"` for one second,
`"1/<n>"` for integer reciprocals, and for non-integer reciprocals the
2-decimal rendering with trailing zeros and the trailing point stripped
(`f"1/{1 / s:.2f}".rstrip("0").rstrip(".")`).  The Python test
`int(1 / s) != 1 / s` (reciprocal not an integer) is `(1/s).den ≠ 1`. -/
def generate_shutter_speed_labels : List String :=
  SHUTTER_SPEEDS.map (fun s =>
    if s = 1 then "1"
    else if (qdiv 1 s).den ≠ 1 then "1/" ++ rstrip (rstrip (fmt2f (qdiv 1 s)) '0') '.'
    else "1/" ++ toString (qdiv 1 s).num)

/-- `to_fraction` from `utils.py`: `SHUTTER_SPEEDS.index(shutter_speed)`
(raising `ValueError` when absent, matching Python `list.index`), then the
label at that index.  The index returned by `findIdx?` is always in range, so
the `""` default of `getD` is unreachable. -/
def to_fraction (shutter_speed : ℚ) : Except PyErr String :=
  match SHUTTER_SPEEDS.findIdx? (fun v => decide (v = shutter_speed)) with
  | none => .error (.valueError "is not in list")
  | some index => .ok (generate_shutter_speed_labels.getD index "")

/-! ## Request/response record, from `utils.extract_form_data` -/

/-- The value stored in the Python `data["result"]` field: the aperture branch
stores the string `f"f/{result}"`, the shutter branch the fraction label, the
ISO branch the integer itself.  The constructors record the payload; the
final numeral-to-text conversion of the adapter is not modelled. -/
inductive ResultValue where
  | apertureVal (v : ℚ)
  | shutterLabel (s : String)
  | isoVal (v : ℚ)
deriving DecidableEq

/-- The `data` dict flowing through the calculator: the seven input fields
set by `extract_form_data`, plus the four output fields it initialises to
`None` / `""` / `""` / `""`. -/
structure FormData where
  aperture : ℚ
  shutterspeed : ℚ
  iso : ℤ
  ev : ℤ
  lock_aperture : Bool
  lock_shutter_speed : Bool
  lock_iso : Bool
  result : Option ResultValue
  result_key : String
  error : String
  warning : String
deriving DecidableEq

/-- `validate_locks` from `utils.py`. -/
def validate_locks (data : FormData) : String :=
  let locks := [data.lock_aperture, data.lock_shutter_speed, data.lock_iso]
  if locks.count true ≠ 2 then
    "Please lock exactly two variables to calculate the third."
  else ""

/-! ## Exposure equation engine, from `src/calculations.py` -/

/-- Outcome of the three compute functions: Python's tuple
`(True, value)` or `(False, warning_message)`. -/
inductive CalcOutcome where
  | success (v : ℚ)
  | warning (msg : String)
deriving DecidableEq

/-- Square of the exact aperture `sqrt((iso/100) * 2^ev * shutterspeed)`
computed by `calculate_aperture`. -/
def apertureExactSq (data : FormData) : ℚ :=
  qmul (qmul (qdiv (data.iso : ℚ) 100) (zpow2 data.ev)) data.shutterspeed

/-- `calculate_aperture` from `calculations.py`.  Python evaluates
`math.sqrt` (ValueError on a negative argument), resolves with `find_nearest`
(ValueError on a zero target via `math.log2`), then warns when the *matched*
value lies outside the UI range.  A negative and a zero exact square both
surface the same `ValueError`; the resolver's guard `tsq ≤ 0` covers both. -/
def calculate_aperture (data : FormData) : Except PyErr CalcOutcome :=
  match find_nearest_sq STANDARD_APERTURES (apertureExactSq data) with
  | .error e => .error e
  | .ok matched_aperture =>
    if matched_aperture < listMin APERTURES then
      .ok (.warning "Calculated aperture is wider than available. Try decreasing ISO or using a faster shutter speed.")
    else if listMax APERTURES < matched_aperture then
      .ok (.warning "Calculated aperture is narrower than available. Try increasing ISO or using a slower shutter speed.")
    else .ok (.success matched_aperture)

/-- Exact shutter speed `aperture^2 / (2^ev * iso/100)` computed by
`calculate_shutter_speed` (only meaningful when the denominator is nonzero). -/
def shutterExact (data : FormData) : ℚ :=
  qdiv (data.aperture^2) (qmul (zpow2 data.ev) (qdiv (data.iso : ℚ) 100))

/-- `calculate_shutter_speed` from `calculations.py`.  A zero denominator
(`iso = 0`) raises `ZeroDivisionError` in Python before the resolver runs.
The `exact_str` formatting of the warning text never raises for the positive
targets that reach it and is elided with the interpolated numeral. -/
def calculate_shutter_speed (data : FormData) : Except PyErr CalcOutcome :=
  if qmul (zpow2 data.ev) (qdiv (data.iso : ℚ) 100) = 0 then
    .error (.zeroDivisionError "float division by zero")
  else
    match find_nearest STANDARD_SHUTTER_SPEEDS (shutterExact data) with
    | .error e => .error e
    | .ok matched_shutter_speed =>
      if matched_shutter_speed < listMin SHUTTER_SPEEDS then
        .ok (.warning "Calculated shutter speed is faster than available. Try decreasing ISO or using a narrower aperture.")
      else if listMax SHUTTER_SPEEDS < matched_shutter_speed then
        .ok (.warning "Calculated shutter speed is slower than available. Try increasing ISO or using a wider aperture.")
      else .ok (.success matched_shutter_speed)

/-- Exact ISO `100 * (aperture^2 / shutterspeed) / 2^ev` computed by
`calculate_iso` (only meaningful when `shutterspeed ≠ 0`). -/
def isoExact (data : FormData) : ℚ :=
  qdiv (qmul 100 (qdiv (data.aperture^2) data.shutterspeed)) (zpow2 data.ev)

/-- `calculate_iso` from `calculations.py`.  `shutterspeed = 0` raises
`ZeroDivisionError` in Python.  The final Python `int(matched_iso)` is the
identity on every (integral) element of the ISO scale and is not repeated
here. -/
def calculate_iso (data : FormData) : Except PyErr CalcOutcome :=
  if data.shutterspeed = 0 then
    .error (.zeroDivisionError "float division by zero")
  else
    match find_nearest STANDARD_ISO_VALUES (isoExact data) with
    | .error e => .error e
    | .ok matched_iso =>
      if matched_iso < listMin ISO_VALUES then
        .ok (.warning "Calculated ISO is lower than available. Try using a narrower aperture or a faster shutter speed.")
      else if listMax ISO_VALUES < matched_iso then
        .ok (.warning "Calculated ISO is higher than available. Try using a wider aperture or a slower shutter speed.")
      else .ok (.success matched_iso)

/-- The `try`-body of `perform_calculation`: the branch selected by the lock
flags, with any Python exception propagated as `.error`.  In every branch all
fallible computation happens before the first field assignment, so an
exception leaves the record untouched (exactly as in the Python source, where
the handler sees the not-yet-mutated dict). -/
def calcBody (data : FormData) : Except PyErr FormData :=
  if ¬ data.lock_aperture then
    match calculate_aperture data with
    | .error e => .error e
    | .ok (.success v) =>
      .ok { data with result := some (.apertureVal v), result_key := "Aperture" }
    | .ok (.warning m) => .ok { data with warning := m }
  else if ¬ data.lock_shutter_speed then
    match calculate_shutter_speed data with
    | .error e => .error e
    | .ok (.success v) =>
      match to_fraction v with
      | .error e => .error e
      | .ok lbl =>
        .ok { data with result := some (.shutterLabel lbl), result_key := "Shutter Speed" }
    | .ok (.warning m) => .ok { data with warning := m }
  else if ¬ data.lock_iso then
    match calculate_iso data with
    | .error e => .error e
    | .ok (.success v) =>
      .ok { data with result := some (.isoVal v), result_key := "ISO" }
    | .ok (.warning m) => .ok { data with warning := m }
  else .ok data

/-- The two `except` clauses of `perform_calculation`: `ValueError` is
rendered as `"Invalid input: ..."`, any other exception as
`"An unexpected error occurred: ..."`. -/
def renderError : PyErr → String
  | .valueError m => "Invalid input: " ++ m
  | .zeroDivisionError m => "An unexpected error occurred: " ++ m

/-- `perform_calculation` from `calculations.py`. -/
def perform_calculation (data : FormData) : FormData :=
  match calcBody data with
  | .ok d => d
  | .error e => { data with error := renderError e }

/-- The Sunny-16 baseline request: `iso=100, ev=15, shutterSpeed=1/125`, the
aperture unlocked, output fields fresh as `extract_form_data` initialises
them (its `aperture` default is 16). -/
def baselineRequest : FormData :=
  { aperture := 16, shutterspeed := mkRat 1 125, iso := 100, ev := 15,
    lock_aperture := false, lock_shutter_speed := true, lock_iso := true,
    result := none, result_key := "", error := "", warning := "" }

/-! ## Order equivalence of the executable scan key with the source's
`abs(log2 x - log2 t)` key -/

/-! ## Properties of the linear scan `min(..., key=...)` -/

/-! ## Helpers for the claims about the engine record flow -/

/-! ## Claim theorems -/

/-- Adjacent-index strict ascent: the elementary form of "sorted strictly
ascending" (kernel-decidable, unlike the `List.Chain'` instance). -/
def ascending (l : List ℚ) : Prop :=
  ∀ i, i < l.length - 1 → l.getD i 0 < l.getD (i + 1) 0

/-- Adjacent-index strict descent. -/
def descending (l : List ℚ) : Prop :=
  ∀ i, i < l.length - 1 → l.getD (i + 1) 0 < l.getD i 0

/-- Index-wise pairwise distinctness ("no duplicate entries"). -/
def distinctEntries (l : List ℚ) : Prop :=
  ∀ i, i < l.length → ∀ j, j < i → l.getD j 0 ≠ l.getD i 0

instance (l : List ℚ) : Decidable (ascending l) := by
  unfold ascending; infer_instance

instance (l : List ℚ) : Decidable (descending l) := by
  unfold descending; infer_instance

instance (l : List ℚ) : Decidable (distinctEntries l) := by
  unfold distinctEntries; infer_instance

/-- A request on which the exact aperture `sqrt(0.95) ≈ 0.9747` lies strictly
below the UI minimum `f/1.0` while the snapped aperture is `f/1.0` itself. -/
def apertureCexRequest : FormData :=
  { aperture := 16, shutterspeed := mkRat 19 20, iso := 100, ev := 0,
    lock_aperture := false, lock_shutter_speed := true, lock_iso := true,
    result := none, result_key := "", error := "", warning := "" }

/-- A request whose unlocked variable is the ISO and whose shutter speed is
zero: Python raises `ZeroDivisionError` inside `calculate_iso`. -/
def divZeroRequest : FormData :=
  { aperture := 16, shutterspeed := 0, iso := 100, ev := 15,
    lock_aperture := true, lock_shutter_speed := true, lock_iso := false,
    result := none, result_key := "", error := "", warning := "" }

/-! ## Theorems -/

theorem qdiv_eq_div (a b : ℚ) : qdiv a b = a / b := by
  rw [qdiv, ← Rat.divInt_mul_divInt', Rat.num_divInt_den, ← Rat.inv_def',
    ← div_eq_mul_inv]

theorem qmul_eq_mul (a b : ℚ) : qmul a b = a * b := by
  rw [qmul, ← Rat.divInt_mul_divInt', Rat.num_divInt_den, Rat.num_divInt_den]

theorem qadd_eq_add (a b : ℚ) : qadd a b = a + b := by
  rw [qadd, ← Rat.divInt_add_divInt _ _ (by exact_mod_cast a.den_nz)
    (by exact_mod_cast b.den_nz), Rat.num_divInt_den, Rat.num_divInt_den]

theorem zpow2_eq (ev : ℤ) : zpow2 ev = (2:ℚ) ^ ev := by
  rcases le_or_lt 0 ev with h | h
  · have h2 : (2:ℚ) ^ ev = (2:ℚ) ^ (ev.toNat : ℤ) := by
      rw [Int.toNat_of_nonneg h]
    rw [zpow2, if_pos h, Rat.divInt_one, h2, zpow_natCast]
    push_cast
    ring
  · have h2 : (2:ℚ) ^ ev = ((2:ℚ) ^ ((-ev).toNat : ℤ))⁻¹ := by
      rw [Int.toNat_of_nonneg (by omega : (0:ℤ) ≤ -ev), ← zpow_neg, neg_neg]
    rw [zpow2, if_neg (not_le.mpr h), Rat.divInt_eq_div, h2, zpow_natCast]
    push_cast
    rw [one_div]

theorem max_self_inv_pos {a : ℝ} (ha : 0 < a) : 0 < max a a⁻¹ :=
  lt_of_lt_of_le ha (le_max_left _ _)

theorem abs_logb_eq_logb_max {a : ℝ} (ha : 0 < a) :
    |Real.logb 2 a| = Real.logb 2 (max a a⁻¹) := by
  have hmul : a * a⁻¹ = 1 := mul_inv_cancel₀ ha.ne'
  rcases le_total a 1 with h1 | h1
  · have hinv : a ≤ a⁻¹ := by nlinarith
    rw [max_eq_right hinv, Real.logb_inv,
      abs_of_nonpos (Real.logb_nonpos one_lt_two ha.le h1)]
  · have hinv : a⁻¹ ≤ a := by nlinarith
    rw [max_eq_left hinv, abs_of_nonneg (Real.logb_nonneg one_lt_two h1)]

theorem abs_logb_le_iff {a b : ℝ} (ha : 0 < a) (hb : 0 < b) :
    |Real.logb 2 a| ≤ |Real.logb 2 b| ↔ max a a⁻¹ ≤ max b b⁻¹ := by
  rw [abs_logb_eq_logb_max ha, abs_logb_eq_logb_max hb,
    Real.logb_le_logb one_lt_two (max_self_inv_pos ha) (max_self_inv_pos hb)]

theorem abs_logb_lt_iff {a b : ℝ} (ha : 0 < a) (hb : 0 < b) :
    |Real.logb 2 a| < |Real.logb 2 b| ↔ max a a⁻¹ < max b b⁻¹ := by
  rw [abs_logb_eq_logb_max ha, abs_logb_eq_logb_max hb,
    Real.logb_lt_logb_iff one_lt_two (max_self_inv_pos ha) (max_self_inv_pos hb)]

theorem max_sq_eq {a b : ℝ} (ha : 0 ≤ a) (hb : 0 ≤ b) :
    (max a b)^2 = max (a^2) (b^2) := by
  rcases le_total a b with h | h
  · rw [max_eq_right h, max_eq_right (pow_le_pow_left₀ ha h 2)]
  · rw [max_eq_left h, max_eq_left (pow_le_pow_left₀ hb h 2)]

theorem cast_stopKeySq {tsq x : ℚ} (htsq : 0 < tsq) (hx : 0 < x) :
    ((stopKeySq tsq x : ℚ) : ℝ)
      = (max ((x:ℝ) / Real.sqrt tsq) (Real.sqrt tsq / (x:ℝ)))^2 := by
  have htR : (0:ℝ) < (tsq:ℝ) := by exact_mod_cast htsq
  have hxR : (0:ℝ) < (x:ℝ) := by exact_mod_cast hx
  have hs : (0:ℝ) < Real.sqrt tsq := Real.sqrt_pos.mpr htR
  have hsq : (Real.sqrt tsq)^2 = (tsq:ℝ) := Real.sq_sqrt htR.le
  rw [stopKeySq, qdiv_eq_div, qdiv_eq_div, Rat.cast_max]
  push_cast
  rw [max_sq_eq (by positivity) (by positivity), div_pow, div_pow, hsq]

theorem stopKeySq_le_iff {tsq x y : ℚ} (htsq : 0 < tsq) (hx : 0 < x) (hy : 0 < y) :
    stopKeySq tsq x ≤ stopKeySq tsq y ↔
      |Real.logb 2 (x:ℝ) - Real.logb 2 (Real.sqrt tsq)| ≤
        |Real.logb 2 (y:ℝ) - Real.logb 2 (Real.sqrt tsq)| := by
  have hxR : (0:ℝ) < (x:ℝ) := by exact_mod_cast hx
  have hyR : (0:ℝ) < (y:ℝ) := by exact_mod_cast hy
  have hs : (0:ℝ) < Real.sqrt tsq := Real.sqrt_pos.mpr (by exact_mod_cast htsq)
  have e1 : stopKeySq tsq x ≤ stopKeySq tsq y ↔
      (max ((x:ℝ)/Real.sqrt tsq) (Real.sqrt tsq/(x:ℝ)))^2 ≤
        (max ((y:ℝ)/Real.sqrt tsq) (Real.sqrt tsq/(y:ℝ)))^2 := by
    rw [← Rat.cast_le (K := ℝ), cast_stopKeySq htsq hx, cast_stopKeySq htsq hy]
  have e3 : (|Real.logb 2 ((x:ℝ)/Real.sqrt tsq)| ≤ |Real.logb 2 ((y:ℝ)/Real.sqrt tsq)|) ↔
      max ((x:ℝ)/Real.sqrt tsq) (Real.sqrt tsq/(x:ℝ)) ≤
        max ((y:ℝ)/Real.sqrt tsq) (Real.sqrt tsq/(y:ℝ)) := by
    rw [abs_logb_le_iff (div_pos hxR hs) (div_pos hyR hs), inv_div, inv_div]
  rw [e1, pow_le_pow_iff_left₀ (by positivity) (by positivity) (by norm_num),
    ← e3, Real.logb_div hxR.ne' hs.ne', Real.logb_div hyR.ne' hs.ne']

theorem stopKeySq_lt_iff {tsq x y : ℚ} (htsq : 0 < tsq) (hx : 0 < x) (hy : 0 < y) :
    stopKeySq tsq x < stopKeySq tsq y ↔
      |Real.logb 2 (x:ℝ) - Real.logb 2 (Real.sqrt tsq)| <
        |Real.logb 2 (y:ℝ) - Real.logb 2 (Real.sqrt tsq)| := by
  have hxR : (0:ℝ) < (x:ℝ) := by exact_mod_cast hx
  have hyR : (0:ℝ) < (y:ℝ) := by exact_mod_cast hy
  have hs : (0:ℝ) < Real.sqrt tsq := Real.sqrt_pos.mpr (by exact_mod_cast htsq)
  have e1 : stopKeySq tsq x < stopKeySq tsq y ↔
      (max ((x:ℝ)/Real.sqrt tsq) (Real.sqrt tsq/(x:ℝ)))^2 <
        (max ((y:ℝ)/Real.sqrt tsq) (Real.sqrt tsq/(y:ℝ)))^2 := by
    rw [← Rat.cast_lt (K := ℝ), cast_stopKeySq htsq hx, cast_stopKeySq htsq hy]
  have e3 : (|Real.logb 2 ((x:ℝ)/Real.sqrt tsq)| < |Real.logb 2 ((y:ℝ)/Real.sqrt tsq)|) ↔
      max ((x:ℝ)/Real.sqrt tsq) (Real.sqrt tsq/(x:ℝ)) <
        max ((y:ℝ)/Real.sqrt tsq) (Real.sqrt tsq/(y:ℝ)) := by
    rw [abs_logb_lt_iff (div_pos hxR hs) (div_pos hyR hs), inv_div, inv_div]
  rw [e1, pow_lt_pow_iff_left₀ (by positivity) (by positivity) (by norm_num),
    ← e3, Real.logb_div hxR.ne' hs.ne', Real.logb_div hyR.ne' hs.ne']

/-- For a rational target `t > 0`, the square root of `t^2` is `t` itself, so
the `find_nearest` key comparisons are against `logb 2 t`. -/
theorem sqrt_sq_cast {t : ℚ} (ht : 0 < t) :
    Real.sqrt ((t^2 : ℚ) : ℝ) = (t : ℝ) := by
  push_cast
  exact Real.sqrt_sq (by exact_mod_cast ht.le)

theorem minByFirst_mem (k : ℚ → ℚ) :
    ∀ (xs : List ℚ) (x : ℚ), minByFirst k x xs ∈ x :: xs := by
  intro xs
  induction xs with
  | nil => intro x; simp [minByFirst]
  | cons y ys ih =>
    intro x
    have e : minByFirst k x (y :: ys)
        = minByFirst k (if k y < k x then y else x) ys := rfl
    by_cases hc : k y < k x
    · rw [e, if_pos hc]
      have h := ih y
      simp only [List.mem_cons] at h ⊢
      tauto
    · rw [e, if_neg hc]
      have h := ih x
      simp only [List.mem_cons] at h ⊢
      tauto

theorem minByFirst_le (k : ℚ → ℚ) :
    ∀ (xs : List ℚ) (x : ℚ), ∀ z ∈ x :: xs, k (minByFirst k x xs) ≤ k z := by
  intro xs
  induction xs with
  | nil =>
    intro x z hz
    simp only [List.mem_cons, List.not_mem_nil, or_false] at hz
    subst hz
    simp [minByFirst]
  | cons y ys ih =>
    intro x z hz
    have e : minByFirst k x (y :: ys)
        = minByFirst k (if k y < k x then y else x) ys := rfl
    rw [e]
    have hle_x : k (if k y < k x then y else x) ≤ k x := by
      by_cases hc : k y < k x
      · rw [if_pos hc]; exact le_of_lt hc
      · rw [if_neg hc]
    have hle_y : k (if k y < k x then y else x) ≤ k y := by
      by_cases hc : k y < k x
      · rw [if_pos hc]
      · rw [if_neg hc]; exact le_of_not_lt hc
    have hmin : k (minByFirst k (if k y < k x then y else x) ys)
        ≤ k (if k y < k x then y else x) :=
      ih _ _ (List.mem_cons_self _ _)
    rcases List.mem_cons.mp hz with rfl | hz2
    · exact le_trans hmin hle_x
    rcases List.mem_cons.mp hz2 with rfl | hz3
    · exact le_trans hmin hle_y
    · exact ih _ z (List.mem_cons_of_mem _ hz3)

theorem minByFirst_first (k : ℚ → ℚ) :
    ∀ (xs : List ℚ) (x : ℚ), ∃ l₁ l₂, x :: xs = l₁ ++ minByFirst k x xs :: l₂ ∧
      ∀ z ∈ l₁, k (minByFirst k x xs) < k z := by
  intro xs
  induction xs with
  | nil => intro x; exact ⟨[], [], rfl, by simp⟩
  | cons y ys ih =>
    intro x
    have e : minByFirst k x (y :: ys)
        = minByFirst k (if k y < k x then y else x) ys := rfl
    by_cases hc : k y < k x
    · obtain ⟨l₁, l₂, hsplit, hstrict⟩ := ih y
      rw [if_pos hc] at e
      refine ⟨x :: l₁, l₂, ?_, ?_⟩
      · rw [e, List.cons_append, ← hsplit]
      · intro z hz
        rw [e]
        rcases List.mem_cons.mp hz with rfl | hz2
        · exact lt_of_le_of_lt (minByFirst_le k ys y y (List.mem_cons_self _ _)) hc
        · exact hstrict z hz2
    · obtain ⟨l₁, l₂, hsplit, hstrict⟩ := ih x
      rw [if_neg hc] at e
      rcases l₁ with _ | ⟨a, l₁'⟩
      · simp only [List.nil_append] at hsplit
        injection hsplit with hm hl
        refine ⟨[], y :: ys, ?_, by simp⟩
        simp only [List.nil_append]
        rw [e, ← hm]
      · simp only [List.cons_append] at hsplit
        injection hsplit with ha hys
        have hmx : k (minByFirst k x (y :: ys)) < k x := by
          rw [e]
          exact hstrict x (by rw [ha]; exact List.mem_cons_self a l₁')
        refine ⟨x :: y :: l₁', l₂, ?_, ?_⟩
        · rw [e]
          simp only [List.cons_append]
          rw [← hys]
        · intro z hz
          rcases List.mem_cons.mp hz with rfl | hz2
          · exact hmx
          rcases List.mem_cons.mp hz2 with rfl | hz3
          · exact lt_of_lt_of_le hmx (le_of_not_lt hc)
          · rw [e]
            exact hstrict z (List.mem_cons_of_mem _ hz3)

theorem minByFirst_append (k : ℚ → ℚ) (x : ℚ) (xs ys : List ℚ) :
    minByFirst k x (xs ++ ys) = minByFirst k (minByFirst k x xs) ys := by
  simp [minByFirst, List.foldl_append]

/-- On a non-empty all-positive scale and a positive target, `find_nearest`
succeeds with the first-minimum scan result. -/
theorem find_nearest_cons_eq {z t : ℚ} {zs : List ℚ} (ht : 0 < t)
    (hS : ∀ x ∈ z :: zs, 0 < x) :
    find_nearest (z :: zs) t = .ok (minByFirst (stopKeySq (t^2)) z zs) := by
  have hall : ((z :: zs).all fun y => decide (0 < y)) = true := by
    simp only [List.all_eq_true, decide_eq_true_eq]
    exact hS
  simp only [find_nearest, hall]
  rw [if_neg]
  simp [not_le.mpr ht]

/-- The scan key is at least `1` on positive inputs (the key of the target
itself). -/
theorem one_le_stopKeySq {tsq m : ℚ} (htsq : 0 < tsq) (hm : 0 < m) :
    1 ≤ stopKeySq tsq m := by
  rw [stopKeySq, qdiv_eq_div, qdiv_eq_div]
  rcases le_total (m^2) tsq with h | h
  · exact le_trans ((one_le_div (by positivity)).mpr h) (le_max_right _ _)
  · exact le_trans ((one_le_div htsq).mpr h) (le_max_left _ _)

/-- C2 (`find_nearest` log-distance minimality with first-occurrence
tie-break), packaged over the executable embedding. -/
theorem find_nearest_min_log_dist (S : List ℚ) (t : ℚ) (ht : 0 < t)
    (hS : ∀ x ∈ S, 0 < x) (hne : S ≠ []) :
    ∃ r, find_nearest S t = .ok r ∧ r ∈ S ∧
      (∀ y ∈ S, |Real.logb 2 (r:ℝ) - Real.logb 2 (t:ℝ)|
        ≤ |Real.logb 2 (y:ℝ) - Real.logb 2 (t:ℝ)|) ∧
      ∃ l₁ l₂, S = l₁ ++ r :: l₂ ∧ ∀ y ∈ l₁,
        |Real.logb 2 (r:ℝ) - Real.logb 2 (t:ℝ)|
          < |Real.logb 2 (y:ℝ) - Real.logb 2 (t:ℝ)| := by
  rcases S with _ | ⟨z, zs⟩
  · exact absurd rfl hne
  have htsq : 0 < t^2 := by positivity
  refine ⟨minByFirst (stopKeySq (t^2)) z zs, find_nearest_cons_eq ht hS, ?_, ?_, ?_⟩
  · exact minByFirst_mem _ zs z
  · intro y hy
    have hr := hS _ (minByFirst_mem (stopKeySq (t^2)) zs z)
    have hk := minByFirst_le (stopKeySq (t^2)) zs z y hy
    have h2 := (stopKeySq_le_iff htsq hr (hS y hy)).mp hk
    rwa [sqrt_sq_cast ht] at h2
  · obtain ⟨l₁, l₂, hsplit, hstrict⟩ := minByFirst_first (stopKeySq (t^2)) zs z
    refine ⟨l₁, l₂, hsplit, ?_⟩
    intro y hy
    have hyS : y ∈ z :: zs := by
      rw [hsplit]
      exact List.mem_append_left _ hy
    have hr := hS _ (minByFirst_mem (stopKeySq (t^2)) zs z)
    have h2 := (stopKeySq_lt_iff htsq hr (hS y hyS)).mp (hstrict y hy)
    rwa [sqrt_sq_cast ht] at h2

/-- C9 (`find_nearest` exact-match idempotence), over the executable
embedding. -/
theorem find_nearest_exact_match (S : List ℚ) (x : ℚ) (hmem : x ∈ S)
    (hpos : ∀ y ∈ S, 0 < y) (hnd : S.Nodup) :
    find_nearest S x = .ok x := by
  rcases S with _ | ⟨z, zs⟩
  · exact absurd hmem (List.not_mem_nil x)
  have hx : 0 < x := hpos x hmem
  have htsq : 0 < x^2 := by positivity
  rw [find_nearest_cons_eq hx hpos]
  have hm_mem := minByFirst_mem (stopKeySq (x^2)) zs z
  have hm_pos : 0 < minByFirst (stopKeySq (x^2)) z zs := hpos _ hm_mem
  have hkx : stopKeySq (x^2) x = 1 := by
    rw [stopKeySq, qdiv_eq_div, div_self (by positivity), max_self]
  have hle : stopKeySq (x^2) (minByFirst (stopKeySq (x^2)) z zs) ≤ 1 := by
    rw [← hkx]
    exact minByFirst_le (stopKeySq (x^2)) zs z x hmem
  have heq1 : stopKeySq (x^2) (minByFirst (stopKeySq (x^2)) z zs) = 1 :=
    le_antisymm hle (one_le_stopKeySq htsq hm_pos)
  have hboth := max_le_iff.mp heq1.le
  rw [qdiv_eq_div, qdiv_eq_div, div_le_one htsq, div_le_one (by positivity)] at hboth
  have hsq_eq : (minByFirst (stopKeySq (x^2)) z zs)^2 = x^2 :=
    le_antisymm hboth.1 hboth.2
  have : minByFirst (stopKeySq (x^2)) z zs = x :=
    le_antisymm
      ((pow_le_pow_iff_left₀ hm_pos.le hx.le (by norm_num)).mp hsq_eq.le)
      ((pow_le_pow_iff_left₀ hx.le hm_pos.le (by norm_num)).mp hsq_eq.ge)
  rw [this]

theorem validate_locks_eq (d : FormData) :
    validate_locks d =
      if d.lock_aperture.toNat + d.lock_shutter_speed.toNat + d.lock_iso.toNat = 2
      then "" else "Please lock exactly two variables to calculate the third." := by
  rcases d with ⟨a, s, i, e, la, ls, li, r, rk, er, w⟩
  cases la <;> cases ls <;> cases li <;> rfl

theorem uiSlice_sublist (l : List ℚ) : List.Sublist (uiSlice l) l :=
  ((l.drop 3).take_sublist _).trans (l.drop_sublist 3)

theorem renderError_ne_empty (e : PyErr) : renderError e ≠ "" := by
  cases e with
  | valueError m =>
    intro h
    have h2 := congrArg String.length h
    rw [renderError, String.length_append] at h2
    simp at h2
    exact absurd h2.1 (by decide)
  | zeroDivisionError m =>
    intro h
    have h2 := congrArg String.length h
    rw [renderError, String.length_append] at h2
    simp at h2
    exact absurd h2.1 (by decide)

theorem calculate_aperture_warning_ne {d : FormData} {m : String}
    (h : calculate_aperture d = .ok (.warning m)) : m ≠ "" := by
  rw [calculate_aperture] at h
  split at h
  · exact absurd h (by simp)
  · split_ifs at h
    · injection h with h; injection h with h; subst h; decide
    · injection h with h; injection h with h; subst h; decide
    · injection h with h; injection h

theorem calculate_shutter_speed_warning_ne {d : FormData} {m : String}
    (h : calculate_shutter_speed d = .ok (.warning m)) : m ≠ "" := by
  rw [calculate_shutter_speed] at h
  split at h
  · exact absurd h (by simp)
  · split at h
    · exact absurd h (by simp)
    · split_ifs at h
      · injection h with h; injection h with h; subst h; decide
      · injection h with h; injection h with h; subst h; decide
      · injection h with h; injection h

theorem calculate_iso_warning_ne {d : FormData} {m : String}
    (h : calculate_iso d = .ok (.warning m)) : m ≠ "" := by
  rw [calculate_iso] at h
  split at h
  · exact absurd h (by simp)
  · split at h
    · exact absurd h (by simp)
    · split_ifs at h
      · injection h with h; injection h with h; subst h; decide
      · injection h with h; injection h with h; subst h; decide
      · injection h with h; injection h

/-- Exhaustive shape analysis of the `try`-body: it either raises, stores a
result (with its label), stores a non-empty warning, or — when all three
variables are locked — returns the record unchanged. -/
theorem calcBody_cases (d : FormData) :
    (∃ e, calcBody d = .error e)
    ∨ (∃ v k, calcBody d = .ok { d with result := some v, result_key := k })
    ∨ (∃ m, m ≠ "" ∧ calcBody d = .ok { d with warning := m })
    ∨ (d.lock_aperture = true ∧ d.lock_shutter_speed = true ∧ d.lock_iso = true
        ∧ calcBody d = .ok d) := by
  rw [calcBody]
  by_cases hA : d.lock_aperture = true
  · rw [if_neg (by simp [hA])]
    by_cases hS : d.lock_shutter_speed = true
    · rw [if_neg (by simp [hS])]
      by_cases hI : d.lock_iso = true
      · rw [if_neg (by simp [hI])]
        exact Or.inr (Or.inr (Or.inr ⟨hA, hS, hI, rfl⟩))
      · rw [if_pos hI]
        rcases hc : calculate_iso d with e | o
        · exact Or.inl ⟨e, rfl⟩
        · rcases o with v | m
          · exact Or.inr (Or.inl ⟨.isoVal v, "ISO", rfl⟩)
          · exact Or.inr (Or.inr (Or.inl
              ⟨m, calculate_iso_warning_ne hc, rfl⟩))
    · rw [if_pos hS]
      rcases hc : calculate_shutter_speed d with e | o
      · exact Or.inl ⟨e, rfl⟩
      · rcases o with v | m
        · rcases ht : to_fraction v with e2 | lbl
          · exact Or.inl ⟨e2, by simp only [ht]⟩
          · exact Or.inr (Or.inl ⟨.shutterLabel lbl, "Shutter Speed", by simp only [ht]⟩)
        · exact Or.inr (Or.inr (Or.inl
            ⟨m, calculate_shutter_speed_warning_ne hc, rfl⟩))
  · rw [if_pos hA]
    rcases hc : calculate_aperture d with e | o
    · exact Or.inl ⟨e, rfl⟩
    · rcases o with v | m
      · exact Or.inr (Or.inl ⟨.apertureVal v, "Aperture", rfl⟩)
      · exact Or.inr (Or.inr (Or.inl
          ⟨m, calculate_aperture_warning_ne hc, rfl⟩))

/-- C7: `validate_locks` returns the empty string for every combination with
exactly two of the three lock flags set, and a non-empty error string when the
count of set flags is 0, 1 or 3. -/
theorem validate_locks_exactly_two (d : FormData) :
    (d.lock_aperture.toNat + d.lock_shutter_speed.toNat + d.lock_iso.toNat = 2 →
      validate_locks d = "")
    ∧ (d.lock_aperture.toNat + d.lock_shutter_speed.toNat + d.lock_iso.toNat ≠ 2 →
      validate_locks d ≠ "") := by
  constructor
  · intro h
    rw [validate_locks_eq, if_pos h]
  · intro h
    rw [validate_locks_eq, if_neg h]
    decide

/-- Witness for C7 at a two-locked and at a three-locked request. -/
theorem validate_locks_exactly_two_witness :
    validate_locks baselineRequest = ""
    ∧ validate_locks ⟨16, 1, 100, 15, true, true, true, none, "", "", ""⟩ ≠ "" :=
  ⟨(validate_locks_exactly_two baselineRequest).1 (by decide),
   (validate_locks_exactly_two ⟨16, 1, 100, 15, true, true, true, none, "", "", ""⟩).2
     (by decide)⟩

/-- C3 counterexample: the shutter-speed standard scale starts `2.0, 1.6, ...`
and is therefore not sorted strictly ascending, contrary to the claim that all
three quantities' scales are ascending. -/
theorem scales_ascending_counterexample :
    STANDARD_SHUTTER_SPEEDS.getD 0 0 = 2
    ∧ STANDARD_SHUTTER_SPEEDS.getD 1 0 = mkRat 16 10
    ∧ ¬ (STANDARD_SHUTTER_SPEEDS.getD 0 0 < STANDARD_SHUTTER_SPEEDS.getD 1 0)
    ∧ ¬ ascending STANDARD_SHUTTER_SPEEDS := by decide

/-- C3 amended: the ISO and aperture scales (standard and UI) are sorted
strictly ascending, the shutter-speed scales (standard and UI) are sorted
strictly descending, none has duplicate entries, and each UI scale is a
subset of its standard scale. -/
theorem scales_sorted_amended :
    ascending STANDARD_ISO_VALUES ∧ ascending ISO_VALUES
    ∧ ascending STANDARD_APERTURES ∧ ascending APERTURES
    ∧ descending STANDARD_SHUTTER_SPEEDS ∧ descending SHUTTER_SPEEDS
    ∧ distinctEntries STANDARD_ISO_VALUES ∧ distinctEntries ISO_VALUES
    ∧ distinctEntries STANDARD_APERTURES ∧ distinctEntries APERTURES
    ∧ distinctEntries STANDARD_SHUTTER_SPEEDS ∧ distinctEntries SHUTTER_SPEEDS
    ∧ ISO_VALUES ⊆ STANDARD_ISO_VALUES
    ∧ APERTURES ⊆ STANDARD_APERTURES
    ∧ SHUTTER_SPEEDS ⊆ STANDARD_SHUTTER_SPEEDS := by
  refine ⟨?_, ?_, ?_, ?_, ?_, ?_, ?_, ?_, ?_, ?_, ?_, ?_,
    (uiSlice_sublist _).subset, (uiSlice_sublist _).subset,
    (uiSlice_sublist _).subset⟩ <;> decide

/-- Witness for C3 amended at the first adjacent pair of the ISO scale. -/
theorem scales_sorted_amended_witness :
    0 < STANDARD_ISO_VALUES.length - 1
    ∧ STANDARD_ISO_VALUES.getD 0 0 < STANDARD_ISO_VALUES.getD (0 + 1) 0 :=
  ⟨by decide, scales_sorted_amended.1 0 (by decide)⟩

/-- C8: on the Sunny-16 baseline request (`iso = 100`, `ev = 15`,
`shutterSpeed = 1/125`, aperture unlocked) the computation succeeds with the
resolved aperture `f/16` and the result label `"Aperture"`, with no warning
and no error. -/
theorem sunny16_baseline_aperture :
    (perform_calculation baselineRequest).result = some (.apertureVal 16)
    ∧ (perform_calculation baselineRequest).result_key = "Aperture"
    ∧ (perform_calculation baselineRequest).warning = ""
    ∧ (perform_calculation baselineRequest).error = "" := by decide

/-- C4 counterexample: `2.0` is a value of the shutter-speed *standard*
scale, yet `to_fraction` looks it up in the UI scale `SHUTTER_SPEEDS`
(which starts at 1 second) and raises `ValueError`, so the claim quantified
over the standard scale fails. -/
theorem to_fraction_standard_counterexample :
    (2:ℚ) ∈ STANDARD_SHUTTER_SPEEDS
    ∧ to_fraction 2 = .error (.valueError "is not in list") := by decide

/-- C4 amended: for every index of the *UI* shutter-speed scale,
`to_fraction` of the value at that index returns the precomputed label at the
same index; the label's first occurrence in the label list is that very index
(labels are unambiguous); and the round trip label → value → label is the
identity, where label → value is the positional lookup of the UI zip. -/
theorem to_fraction_ui_roundtrip :
    ∀ i, i < SHUTTER_SPEEDS.length →
      to_fraction (SHUTTER_SPEEDS.getD i 0)
          = .ok (generate_shutter_speed_labels.getD i "")
      ∧ List.findIdx (fun l => l == generate_shutter_speed_labels.getD i "")
          generate_shutter_speed_labels = i
      ∧ to_fraction (SHUTTER_SPEEDS.getD
            (List.findIdx (fun l => l == generate_shutter_speed_labels.getD i "")
              generate_shutter_speed_labels) 0)
          = .ok (generate_shutter_speed_labels.getD i "") := by decide

/-- Witness for C4 at index 24, the `1/125` stop. -/
theorem to_fraction_ui_roundtrip_witness :
    24 < SHUTTER_SPEEDS.length
    ∧ (to_fraction (SHUTTER_SPEEDS.getD 24 0)
          = .ok (generate_shutter_speed_labels.getD 24 "")
      ∧ List.findIdx (fun l => l == generate_shutter_speed_labels.getD 24 "")
          generate_shutter_speed_labels = 24
      ∧ to_fraction (SHUTTER_SPEEDS.getD
            (List.findIdx (fun l => l == generate_shutter_speed_labels.getD 24 "")
              generate_shutter_speed_labels) 0)
          = .ok (generate_shutter_speed_labels.getD 24 "")) :=
  ⟨by decide, to_fraction_ui_roundtrip 24 (by decide)⟩

/-- C1 counterexample: `calculate_aperture` succeeds (no warning) although
the *exact* unrounded aperture `sqrt(apertureExactSq) = sqrt(19/20)` is
strictly below the UI scale minimum — the range check uses the snapped value,
not the exact one, contrary to the claim. -/
theorem range_check_exact_counterexample :
    calculate_aperture apertureCexRequest = .ok (.success 1)
    ∧ apertureExactSq apertureCexRequest = mkRat 19 20
    ∧ listMin APERTURES = 1
    ∧ Real.sqrt ((mkRat 19 20 : ℚ) : ℝ) < ((listMin APERTURES : ℚ) : ℝ) := by
  refine ⟨by decide, by decide, by decide, ?_⟩
  have h1 : ((mkRat 19 20 : ℚ) : ℝ) = 19/20 := by
    rw [show (mkRat 19 20 : ℚ) = qdiv 19 20 from by decide, qdiv_eq_div]
    push_cast
    norm_num
  have h2 : ((listMin APERTURES : ℚ) : ℝ) = 1 := by
    rw [show listMin APERTURES = 1 from by decide]
    norm_num
  rw [h1, h2, Real.sqrt_lt' one_pos]
  norm_num

/-- C1 amended: each compute function warns exactly when the *snapped*
(resolved) value lies outside the UI scale's `[min, max]` range, and
otherwise succeeds with the snapped value. -/
theorem range_check_snapped_amended (d : FormData) (ma ms mi : ℚ) :
    (find_nearest_sq STANDARD_APERTURES (apertureExactSq d) = .ok ma →
      calculate_aperture d = .ok (
        if ma < listMin APERTURES then
          .warning "Calculated aperture is wider than available. Try decreasing ISO or using a faster shutter speed."
        else if listMax APERTURES < ma then
          .warning "Calculated aperture is narrower than available. Try increasing ISO or using a slower shutter speed."
        else .success ma))
    ∧ (qmul (zpow2 d.ev) (qdiv (d.iso : ℚ) 100) ≠ 0 →
      find_nearest STANDARD_SHUTTER_SPEEDS (shutterExact d) = .ok ms →
      calculate_shutter_speed d = .ok (
        if ms < listMin SHUTTER_SPEEDS then
          .warning "Calculated shutter speed is faster than available. Try decreasing ISO or using a narrower aperture."
        else if listMax SHUTTER_SPEEDS < ms then
          .warning "Calculated shutter speed is slower than available. Try increasing ISO or using a wider aperture."
        else .success ms))
    ∧ (d.shutterspeed ≠ 0 →
      find_nearest STANDARD_ISO_VALUES (isoExact d) = .ok mi →
      calculate_iso d = .ok (
        if mi < listMin ISO_VALUES then
          .warning "Calculated ISO is lower than available. Try using a narrower aperture or a faster shutter speed."
        else if listMax ISO_VALUES < mi then
          .warning "Calculated ISO is higher than available. Try using a wider aperture or a slower shutter speed."
        else .success mi)) := by
  refine ⟨?_, ?_, ?_⟩
  · intro h
    simp only [calculate_aperture, h]
    split_ifs <;> rfl
  · intro hden h
    simp only [calculate_shutter_speed, if_neg hden, h]
    split_ifs <;> rfl
  · intro hss h
    simp only [calculate_iso, if_neg hss, h]
    split_ifs <;> rfl

/-- Concrete shutter-speed resolution on the baseline request, evaluated in
two halves of the scale (a single 46-step kernel fold is too deep). -/
theorem find_nearest_shutter_baseline :
    find_nearest STANDARD_SHUTTER_SPEEDS (shutterExact baselineRequest)
      = .ok (mkRat 1 125) := by
  rw [show shutterExact baselineRequest = mkRat 1 128 from by decide]
  rw [show STANDARD_SHUTTER_SPEEDS
      = 2 :: ((STANDARD_SHUTTER_SPEEDS.drop 1).take 22
          ++ STANDARD_SHUTTER_SPEEDS.drop 23) from by decide]
  rw [find_nearest_cons_eq (by decide) (by decide), minByFirst_append]
  rw [show minByFirst (stopKeySq ((mkRat 1 128)^2)) 2
      ((STANDARD_SHUTTER_SPEEDS.drop 1).take 22) = mkRat 1 80 from by decide]
  rw [show minByFirst (stopKeySq ((mkRat 1 128)^2)) (mkRat 1 80)
      (STANDARD_SHUTTER_SPEEDS.drop 23) = mkRat 1 125 from by decide]

/-- Witness for C1 amended on the baseline request, for all three compute
functions. -/
theorem range_check_snapped_amended_witness :
    calculate_aperture baselineRequest = .ok (
        if (16:ℚ) < listMin APERTURES then
          .warning "Calculated aperture is wider than available. Try decreasing ISO or using a faster shutter speed."
        else if listMax APERTURES < (16:ℚ) then
          .warning "Calculated aperture is narrower than available. Try increasing ISO or using a slower shutter speed."
        else .success 16)
    ∧ calculate_shutter_speed baselineRequest = .ok (
        if mkRat 1 125 < listMin SHUTTER_SPEEDS then
          .warning "Calculated shutter speed is faster than available. Try decreasing ISO or using a narrower aperture."
        else if listMax SHUTTER_SPEEDS < mkRat 1 125 then
          .warning "Calculated shutter speed is slower than available. Try increasing ISO or using a wider aperture."
        else .success (mkRat 1 125))
    ∧ calculate_iso baselineRequest = .ok (
        if (100:ℚ) < listMin ISO_VALUES then
          .warning "Calculated ISO is lower than available. Try using a narrower aperture or a faster shutter speed."
        else if listMax ISO_VALUES < (100:ℚ) then
          .warning "Calculated ISO is higher than available. Try using a wider aperture or a slower shutter speed."
        else .success 100) :=
  ⟨(range_check_snapped_amended baselineRequest 16 (mkRat 1 125) 100).1 (by decide),
   (range_check_snapped_amended baselineRequest 16 (mkRat 1 125) 100).2.1
     (by decide) find_nearest_shutter_baseline,
   (range_check_snapped_amended baselineRequest 16 (mkRat 1 125) 100).2.2
     (by decide) (by decide)⟩

/-- C6 counterexample: the division-by-zero exception named by the claim is
caught, but it is surfaced as `"An unexpected error occurred: ..."`, not as
the generic `"Invalid input: ..."` message the claim asserts. -/
theorem invalid_input_counterexample :
    (perform_calculation divZeroRequest).error
        = "An unexpected error occurred: float division by zero"
    ∧ ∀ m, (perform_calculation divZeroRequest).error ≠ "Invalid input: " ++ m := by
  have h1 : (perform_calculation divZeroRequest).error
      = "An unexpected error occurred: float division by zero" := by decide
  refine ⟨h1, ?_⟩
  intro m h
  rw [h1] at h
  have h2 := congrArg String.data h
  rw [String.data_append,
    show ("An unexpected error occurred: float division by zero").data
      = 'A' :: ("n unexpected error occurred: float division by zero").data from rfl,
    show ("Invalid input: ").data = 'I' :: ("nvalid input: ").data from rfl,
    List.cons_append] at h2
  injection h2 with hAI h3
  exact absurd hAI (by decide)

/-- C6 amended: every exception of the body is caught by
`perform_calculation` and surfaced in the `error` field (never propagated and
never empty); `ValueError` is rendered as `"Invalid input: ..."` while any
other exception (such as `ZeroDivisionError`) is rendered as
`"An unexpected error occurred: ..."`. -/
theorem exceptions_caught_amended (d : FormData) (e : PyErr)
    (h : calcBody d = .error e) :
    perform_calculation d = { d with error := renderError e }
    ∧ renderError e ≠ ""
    ∧ ((∃ m, e = .valueError m ∧ renderError e = "Invalid input: " ++ m)
       ∨ (∃ m, e = .zeroDivisionError m
            ∧ renderError e = "An unexpected error occurred: " ++ m)) := by
  refine ⟨?_, renderError_ne_empty e, ?_⟩
  · rw [perform_calculation, h]
  · cases e with
    | valueError m => exact Or.inl ⟨m, rfl, rfl⟩
    | zeroDivisionError m => exact Or.inr ⟨m, rfl, rfl⟩

/-- Witness for C6 amended at the zero-shutter-speed request. -/
theorem exceptions_caught_amended_witness :
    calcBody divZeroRequest = .error (.zeroDivisionError "float division by zero")
    ∧ (perform_calculation divZeroRequest
        = { divZeroRequest with
            error := renderError (.zeroDivisionError "float division by zero") }
      ∧ renderError (PyErr.zeroDivisionError "float division by zero") ≠ ""
      ∧ ((∃ m, PyErr.zeroDivisionError "float division by zero" = .valueError m
            ∧ renderError (.zeroDivisionError "float division by zero")
                = "Invalid input: " ++ m)
         ∨ (∃ m, PyErr.zeroDivisionError "float division by zero"
                = .zeroDivisionError m
            ∧ renderError (.zeroDivisionError "float division by zero")
                = "An unexpected error occurred: " ++ m))) :=
  ⟨by decide,
   exceptions_caught_amended divZeroRequest
     (.zeroDivisionError "float division by zero") (by decide)⟩

/-- C5: on any request whose output fields are fresh and on which the
validator confirmed exactly two locks, `perform_calculation` populates
exactly one of `result`, `warning`, `error`. -/
theorem perform_calculation_exactly_one (d : FormData)
    (hlock : validate_locks d = "") (hres : d.result = none)
    (hwarn : d.warning = "") (herr : d.error = "") :
    ((perform_calculation d).result ≠ none ∧ (perform_calculation d).warning = ""
        ∧ (perform_calculation d).error = "")
    ∨ ((perform_calculation d).result = none ∧ (perform_calculation d).warning ≠ ""
        ∧ (perform_calculation d).error = "")
    ∨ ((perform_calculation d).result = none ∧ (perform_calculation d).warning = ""
        ∧ (perform_calculation d).error ≠ "") := by
  rcases calcBody_cases d with ⟨e, hb⟩ | ⟨v, k, hb⟩ | ⟨m, hm, hb⟩ | ⟨hA, hS, hI, hb⟩
  · right; right
    rw [perform_calculation, hb]
    exact ⟨hres, hwarn, renderError_ne_empty e⟩
  · left
    rw [perform_calculation, hb]
    exact ⟨by simp, hwarn, herr⟩
  · right; left
    rw [perform_calculation, hb]
    exact ⟨hres, hm, herr⟩
  · exfalso
    rw [validate_locks_eq, hA, hS, hI] at hlock
    rw [if_neg (by decide)] at hlock
    exact absurd hlock (by decide)

/-- Witness for C5 at the baseline request. -/
theorem perform_calculation_exactly_one_witness :
    validate_locks baselineRequest = "" ∧ baselineRequest.result = none
    ∧ baselineRequest.warning = "" ∧ baselineRequest.error = ""
    ∧ (((perform_calculation baselineRequest).result ≠ none
          ∧ (perform_calculation baselineRequest).warning = ""
          ∧ (perform_calculation baselineRequest).error = "")
      ∨ ((perform_calculation baselineRequest).result = none
          ∧ (perform_calculation baselineRequest).warning ≠ ""
          ∧ (perform_calculation baselineRequest).error = "")
      ∨ ((perform_calculation baselineRequest).result = none
          ∧ (perform_calculation baselineRequest).warning = ""
          ∧ (perform_calculation baselineRequest).error ≠ "")) :=
  ⟨by decide, by decide, by decide, by decide,
   perform_calculation_exactly_one baselineRequest
     (by decide) (by decide) (by decide) (by decide)⟩

/-- C10: `perform_calculation` never changes the seven input fields of the
request record; only `result`, `result_key`, `warning` and `error` may
change. -/
theorem perform_calculation_frame (d : FormData) :
    (perform_calculation d).aperture = d.aperture
    ∧ (perform_calculation d).shutterspeed = d.shutterspeed
    ∧ (perform_calculation d).iso = d.iso
    ∧ (perform_calculation d).ev = d.ev
    ∧ (perform_calculation d).lock_aperture = d.lock_aperture
    ∧ (perform_calculation d).lock_shutter_speed = d.lock_shutter_speed
    ∧ (perform_calculation d).lock_iso = d.lock_iso := by
  rcases calcBody_cases d with ⟨e, hb⟩ | ⟨v, k, hb⟩ | ⟨m, hm, hb⟩ | ⟨hA, hS, hI, hb⟩ <;>
    rw [perform_calculation, hb] <;>
    exact ⟨rfl, rfl, rfl, rfl, rfl, rfl, rfl⟩

/-- Witness for C2 on the scale `[1, 2]` with target `3`. -/
theorem find_nearest_min_log_dist_witness :
    (0:ℚ) < 3 ∧ (∀ x ∈ ([1, 2] : List ℚ), 0 < x) ∧ ([1, 2] : List ℚ) ≠ []
    ∧ ∃ r, find_nearest [1, 2] 3 = .ok r ∧ r ∈ ([1, 2] : List ℚ)
        ∧ (∀ y ∈ ([1, 2] : List ℚ),
            |Real.logb 2 (r:ℝ) - Real.logb 2 (((3:ℚ)):ℝ)|
              ≤ |Real.logb 2 (y:ℝ) - Real.logb 2 (((3:ℚ)):ℝ)|)
        ∧ ∃ l₁ l₂, ([1, 2] : List ℚ) = l₁ ++ r :: l₂ ∧ ∀ y ∈ l₁,
            |Real.logb 2 (r:ℝ) - Real.logb 2 (((3:ℚ)):ℝ)|
              < |Real.logb 2 (y:ℝ) - Real.logb 2 (((3:ℚ)):ℝ)| :=
  ⟨by norm_num, by decide, by decide,
   find_nearest_min_log_dist [1, 2] 3 (by norm_num) (by decide) (by decide)⟩

/-- Witness for C9 on the scale `[1, 2, 4]` at the member `2`. -/
theorem find_nearest_exact_match_witness :
    (2:ℚ) ∈ ([1, 2, 4] : List ℚ) ∧ (∀ y ∈ ([1, 2, 4] : List ℚ), 0 < y)
    ∧ ([1, 2, 4] : List ℚ).Nodup ∧ find_nearest [1, 2, 4] 2 = .ok 2 :=
  ⟨by decide, by decide, by simp,
   find_nearest_exact_match [1, 2, 4] 2 (by decide) (by decide) (by simp)⟩

end Sunny16
